import Mathlib

/-!
Verification development for the restaurant resolution and menu
extraction pipeline (UberEats scraper / search engine).  The TypeScript
sources are shallowly embedded: DOM nodes and loaded pages become plain
data, every string manipulation of the source is reproduced over
`List Char`, and the effectful control flow of `realScrape`,
`scrapeRestaurantMenu` and `realSearch` becomes explicit state passing
(per-attempt oracles, browser open/close flags, adapter outcome lists).
-/

/-! ### JavaScript-style string primitives -/

/-- Whitespace class used by JavaScript `trim` / `\s` (main characters). -/
def jsIsWS (c : Char) : Bool :=
  c = ' ' || c = '\t' || c = '\n' || c = '\r' ||
  c = '\x0b' || c = '\x0c' || c = ' '

/-- The `String.prototype.trim` operation over a character list. -/
def trimChars (cs : List Char) : List Char :=
  ((cs.dropWhile jsIsWS).reverse.dropWhile jsIsWS).reverse

/-- The `String.prototype.trim` operation on strings. -/
def strTrim (s : String) : String :=
  String.mk (trimChars s.data)

/-- The `split` operation at newline characters over a character list (always returns at least one line). -/
def splitLinesChars : List Char → List (List Char)
  | [] => [[]]
  | c :: rest =>
    if c = '\n' then [] :: splitLinesChars rest
    else
      match splitLinesChars rest with
      | [] => [[c]]
      | l :: ls => (c :: l) :: ls

/-- Substring occurrence test, the semantics of `String.prototype.includes`. -/
def hasSubChars (needle : List Char) : List Char → Bool
  | [] => needle.isEmpty
  | c :: rest => needle.isPrefixOf (c :: rest) || hasSubChars needle rest

/-- The `hay.includes(needle)` test on strings. -/
def strContains (hay needle : String) : Bool :=
  hasSubChars needle.data hay.data

/-- The `String.prototype.toLowerCase` operation (ASCII). -/
def toLowerStr (s : String) : String :=
  String.mk (s.data.map Char.toLower)

/-- Split a character list at every occurrence of the separator character,
the semantics of `String.prototype.split(sep)` for a one-character separator. -/
def splitCharOn (sep : Char) : List Char → List (List Char)
  | [] => [[]]
  | c :: rest =>
    if c = sep then [] :: splitCharOn sep rest
    else
      match splitCharOn sep rest with
      | [] => [[c]]
      | l :: ls => (c :: l) :: ls

/-- Replace the first occurrence of `pat` (the semantics of
`String.prototype.replace` with a plain-string pattern). -/
def replaceFirstSub (pat repl : List Char) : List Char → List Char
  | [] => []
  | c :: rest =>
    if pat.isPrefixOf (c :: rest) then repl ++ (c :: rest).drop pat.length
    else c :: replaceFirstSub pat repl rest

/-- The `replace` call on the query-tail regex: remove from the first `?` that is followed by no
newline up to the end of the string (JS `.` does not match `\n` and `$`
without the `m` flag anchors at the very end). -/
def removeQTail : List Char → List Char
  | [] => []
  | c :: rest =>
    if c = '?' then
      if '\n' ∈ rest then c :: removeQTail rest else []
    else c :: removeQTail rest

/-- The capitalization `charAt(0).toUpperCase() + slice(1)`. -/
def capitalizeChars : List Char → List Char
  | [] => []
  | c :: rest => c.toUpper :: rest

/-- Digits-to-number accumulator used by the embedded `parseFloat`. -/
def natOfDigits (cs : List Char) : Nat :=
  cs.foldl (fun a c => 10 * a + (c.toNat - 48)) 0

/-- The price regex `[\$£€]?(\d+\.?\d*)` followed by `parseFloat` on the
captured group: the first maximal digit run, with an optional fractional
part, read as a rational; `0` when the text holds no digit. -/
def parsePrice (s : String) : ℚ :=
  let cs := s.data.dropWhile (fun c => !c.isDigit)
  match cs with
  | [] => 0
  | _ =>
    let intDigits := cs.takeWhile Char.isDigit
    let rest := cs.dropWhile Char.isDigit
    let fracDigits :=
      match rest with
      | '.' :: r => r.takeWhile Char.isDigit
      | _ => []
    (natOfDigits intDigits : ℚ) + (natOfDigits fracDigits : ℚ) / (10 ^ fracDigits.length : ℚ)

/-- Uppercase-letter class `[A-Z]` of the review-detection regex. -/
def isUpperAZ (c : Char) : Bool :=
  'A' ≤ c && c ≤ 'Z'

/-- Does `[A-Z]+\s+[A-Z]+\.` match at the head of the list?  The three
character classes are disjoint, so maximal-run matching is exact. -/
def initialsHere (cs : List Char) : Bool :=
  let (u, r1) := cs.span isUpperAZ
  if u.isEmpty then false
  else
    let (s, r2) := r1.span jsIsWS
    if s.isEmpty then false
    else
      let (v, r3) := r2.span isUpperAZ
      if v.isEmpty then false
      else
        match r3 with
        | '.' :: _ => true
        | _ => false

/-- Search for the user-initials pattern `[A-Z]+\s+[A-Z]+\.` anywhere. -/
def hasInitials : List Char → Bool
  | [] => false
  | c :: rest => initialsHere (c :: rest) || hasInitials rest

/-- Lazy-group scan for `(.+?) -`: the shortest nonempty newline-free prefix
of the input followed by the literal `" -"` (accumulator is reversed). -/
def dashSplitGo : List Char → List Char → Option (List Char)
  | acc, c1 :: c2 :: rest =>
    if !acc.isEmpty && c1 = ' ' && c2 = '-' then some acc.reverse
    else if c1 = '\n' then none
    else dashSplitGo (c1 :: acc) (c2 :: rest)
  | _, _ => none

/-- The capture of `Order (.+?) -` starting right after an `"Order "`. -/
def findDashSplit (cs : List Char) : Option (List Char) :=
  dashSplitGo [] cs

/-- Search the whole title for a match of `Order (.+?) -`, returning the
captured group of the first successful occurrence. -/
def findOrderMatch : List Char → Option (List Char)
  | [] => none
  | c :: rest =>
    if ("Order ".data).isPrefixOf (c :: rest) then
      match findDashSplit ((c :: rest).drop 6) with
      | some g => some g
      | none => findOrderMatch rest
    else findOrderMatch rest

/-! ### Data model (`uberEatsScraper.ts`, `supabase.ts`) -/

/-- Structure `MenuItem` of `uberEatsScraper.ts`: optional fields are `Option`,
`price` is a decimal (rational). -/
structure MenuItem where
  id : String
  name : String
  description : String
  price : ℚ
  category : String
  imageUrl : Option String := none
  isPopular : Option Bool := none
  allergens : Option (List String) := none
  calories : Option Nat := none
deriving DecidableEq, Repr

/-- Structure `RestaurantMenu` of `uberEatsScraper.ts`; `scrapedAt` is an abstract
timestamp threaded into every constructor. -/
structure RestaurantMenu where
  restaurantName : String
  restaurantUrl : String
  menuItems : List MenuItem
  categories : List String
  scrapedAt : Nat
deriving DecidableEq, Repr

/-- Structure `ScrapingOptions` of `uberEatsScraper.ts`; absent fields are `none`. -/
structure ScrapingOptions where
  includeImages : Option Bool := none
  includeNutrition : Option Bool := none
  maxItems : Option Nat := none
  categories : Option (List String) := none
deriving DecidableEq, Repr

/-- Abstraction of one DOM node handed to `extractMenuItemData`: its text
content and the text of the first name-, description- and price-hinted
descendants plus the first image source, as found by the fixed selector
queries of the source (`none` when no element matched). -/
structure Node where
  textContent : String := ""
  nameText : Option String := none
  descText : Option String := none
  priceText : Option String := none
  imgSrc : Option String := none
deriving DecidableEq, Repr

/-- Abstraction of one successfully loaded listing page: the page title and
the node lists each selector stage of `realScrape` would observe, both
before and after the scroll-and-retry step. -/
structure PageModel where
  title : String := ""
  sectionSelectorFound : Bool := false
  sectionNodeLists : List (List Node) := []
  priceNodes : List Node := []
  generalNodeLists : List (List Node) := []
  afterScrollPriceNodes : List Node := []
  afterScrollGeneralNodeLists : List (List Node) := []
deriving DecidableEq, Repr

/-- Outcome of one `realScrape` call: the returned menu or thrown error,
plus whether a browser was launched and whether it was closed before the
call returned or propagated. -/
structure ScrapeOutcome where
  result : Except String RestaurantMenu
  browserLaunched : Bool
  browserClosed : Bool
deriving Repr

/-- Structure `RestaurantSearchResult` of the search engines. -/
structure RestaurantSearchResult where
  name : String
  url : String
  location : Option String := none
  rating : Option ℚ := none
  deliveryTime : Option String := none
deriving DecidableEq, Repr

/-- One organic result of a SerpAPI response (`link` may be absent). -/
structure SerpResult where
  link : Option String := none
deriving DecidableEq, Repr

/-- The part of a SerpAPI response the adapter reads:
`organic_results` may be absent. -/
structure SerpResponse where
  organicResults : Option (List SerpResult) := none
deriving DecidableEq, Repr

/-! ### Shared helpers of the scraper embedding -/

/-- JavaScript truthy coalescing `options.maxItems || d` (0 is falsy). -/
def jsOrNat (o : Option Nat) (d : Nat) : Nat :=
  match o with
  | none => d
  | some n => if n = 0 then d else n

/-- Truthiness of `options.maxItems` (absent or 0 is falsy). -/
def jsTruthyNat (o : Option Nat) : Bool :=
  match o with
  | none => false
  | some n => n ≠ 0

/-- The spread `[...new Set(xs)]`: de-duplication keeping first occurrences. -/
def dedupFirst : List String → List String
  | [] => []
  | x :: xs => x :: dedupFirst (xs.filter (fun y => y ≠ x))
termination_by l => l.length
decreasing_by
  exact Nat.lt_succ_of_le (List.length_filter_le _ _)

/-- The menu object literal every non-mock return path of `realScrape`
builds: `categories` is `[...new Set(menuItems.map(item => item.category))]`. -/
def mkMenu (name url : String) (items : List MenuItem) (now : Nat) : RestaurantMenu :=
  { restaurantName := name
    restaurantUrl := url
    menuItems := items
    categories := dedupFirst (items.map (fun it => it.category))
    scrapedAt := now }

/-! ### Per-node item extraction (`extractMenuItemData`) -/

/-- Category inference of the `page.evaluate` closure inside
`extractMenuItemData`: keyword containment over the lowercased
`name + ' ' + description`. -/
def classifyCategory (name desc : String) : String :=
  let text := toLowerStr (name ++ " " ++ desc)
  if strContains text "pizza" || strContains text "pasta" || strContains text "burger" ||
     strContains text "sandwich" || strContains text "bao" || strContains text "bun" ||
     strContains text "dumpling" then "main"
  else if strContains text "salad" || strContains text "soup" ||
          strContains text "appetizer" || strContains text "starter" then "appetizer"
  else if strContains text "dessert" || strContains text "cake" ||
          strContains text "ice cream" || strContains text "cookie" then "dessert"
  else if strContains text "drink" || strContains text "beverage" ||
          strContains text "coffee" || strContains text "tea" ||
          strContains text "soda" then "drink"
  else "other"

/-- The review / FAQ / rating denylist applied to the trimmed node text
before extraction. -/
def isReviewText (t : String) : Bool :=
  strContains t "Star" || strContains t "•" || hasInitials t.data ||
  strContains t "review" || strContains t "rating" ||
  strContains t "FAQ" || strContains t "frequently asked"

/-- The name computation of `extractMenuItemData`: the trimmed structured
name when nonempty, else the first trimmed nonempty line of the node text
(`lines[0]?.trim() || 'Item ' + index`), else the empty string that makes
the caller discard the node. -/
def extractItemName (node : Node) (index : Nat) : String :=
  let textContent := strTrim node.textContent
  let name0 := strTrim (node.nameText.getD "")
  if name0 ≠ "" then name0
  else if textContent ≠ "" then
    let lines := (splitLinesChars textContent.data).filter
      (fun l => !(trimChars l).isEmpty)
    match lines.head? with
    | some l =>
      let t := trimChars l
      if t.isEmpty then "Item " ++ toString index else String.mk t
    | none => "Item " ++ toString index
  else ""

/-- Function `extractMenuItemData(item, index)`: extracts name, description, price,
image and category from one node; review-like nodes and nodes without a
usable name yield `none` (the item is discarded). -/
def extractMenuItemData (node : Node) (index : Nat) : Option MenuItem :=
  if isReviewText (strTrim node.textContent) then none
  else if extractItemName node index = "" then none
  else some
      { id := "item-" ++ toString index
        name := extractItemName node index
        description := strTrim (node.descText.getD "")
        price := parsePrice (strTrim (node.priceText.getD ""))
        category := classifyCategory (strTrim (node.nameText.getD ""))
          (strTrim (node.descText.getD ""))
        imageUrl :=
          if node.imgSrc.getD "" = "" then none else some (node.imgSrc.getD "")
        isPopular := some
          (strContains (toLowerStr (strTrim (node.nameText.getD ""))) "popular" ||
           strContains (toLowerStr (strTrim (node.nameText.getD ""))) "best") }

/-! ### Selector-cascade extraction (`extractMenuItemsFromSection`,
`extractMenuItems`) -/

/-- The per-selector loop body: run `extractMenuItemData` over the first
`bound` nodes (1-based indices), keeping the successful extractions. -/
def processNodes : Nat → Nat → List Node → List MenuItem
  | 0, _, _ => []
  | _, _, [] => []
  | b + 1, idx, n :: rest =>
    match extractMenuItemData n idx with
    | some it => it :: processNodes b (idx + 1) rest
    | none => processNodes b (idx + 1) rest

/-- The ordered-selector loop shared by section and page-wide extraction:
the first selector whose nodes yield at least one extracted item wins. -/
def selectorCascade (bound : Nat) : List (List Node) → List MenuItem
  | [] => []
  | ns :: rest =>
    let items := processNodes bound 1 ns
    if items.isEmpty then selectorCascade bound rest else items

/-- Functions `findMenuSection` and `extractMenuItemsFromSection`: when a menu section
selector matched, run the in-section selector cascade with bound
`options.maxItems || 50`. -/
def sectionedExtract (opts : ScrapingOptions) (page : PageModel) : List MenuItem :=
  if page.sectionSelectorFound then
    selectorCascade (jsOrNat opts.maxItems 50) page.sectionNodeLists
  else []

/-- Function `extractMenuItems(page, options)`: price-anchored extraction over the
first `options.maxItems || 20` price elements; when that yields nothing,
the general selector cascade with bound `options.maxItems || 50`. -/
def extractMenuItems (opts : ScrapingOptions) (priceNodes : List Node)
    (generalNodeLists : List (List Node)) : List MenuItem :=
  let fromPrice :=
    if priceNodes.isEmpty then []
    else processNodes (jsOrNat opts.maxItems 20) 1 priceNodes
  if fromPrice.isEmpty then
    selectorCascade (jsOrNat opts.maxItems 50) generalNodeLists
  else fromPrice

/-! ### Restaurant-name extraction -/

/-- The first `"store"` component of a `/`-split URL followed by a truthy
(nonempty) component: `urlParts[storeIndex + 1]` of the source. -/
def partAfterStore : List (List Char) → Option (List Char)
  | [] => none
  | p :: rest =>
    if p = "store".data then
      match rest.head? with
      | some q => if q.isEmpty then none else some q
      | none => none
    else partAfterStore rest

/-- The cleanup chain of `extractRestaurantName`: hyphens to spaces, strip
the query tail, drop `north-york`, trim. -/
def cleanStorePart (q : List Char) : List Char :=
  trimChars (replaceFirstSub "north-york".data []
    (removeQTail (q.map (fun c => if c = '-' then ' ' else c))))

/-- The cleanup chain of `mockScrape`, which additionally rewrites the
URL-encoded `yonge%26wellesley`. -/
def cleanStorePartMock (q : List Char) : List Char :=
  trimChars (replaceFirstSub "yonge%26wellesley".data "yonge & wellesley".data
    (replaceFirstSub "north-york".data []
      (removeQTail (q.map (fun c => if c = '-' then ' ' else c)))))

/-- Function `extractRestaurantName(pageTitle, url)`: the `Order (.+?) -` capture of
a non-UberEats title, else the cleaned store component of the URL, else
`'Unknown Restaurant'`. -/
def extractRestaurantName (pageTitle url : String) : String :=
  let fromTitle :=
    if pageTitle ≠ "" && !(strContains pageTitle "Uber Eats") then
      findOrderMatch pageTitle.data
    else none
  match fromTitle with
  | some g => String.mk (trimChars g)
  | none =>
    match partAfterStore (splitCharOn '/' url.data) with
    | some q => String.mk (cleanStorePart q)
    | none => "Unknown Restaurant"

/-! ### Mock menus (`mockScrape`) -/

/-- The Bao House Yonge & Wellesley mock menu (25 items). -/
def baoYongeMenuItems : List MenuItem :=
  [ { id := "1", name := "Pickled Radish Skin 口口脆",
      description := "Crispy pickled radish skin with a tangy, refreshing flavor",
      price := 6.99, category := "appetizer",
      imageUrl := some "https://example.com/pickled-radish-skin.jpg", isPopular := some true }
  , { id := "2", name := "Deep Fired Bun 黄金小馒头 5pcs",
      description := "Golden deep-fried buns served with sweetened condensed milk",
      price := 5.99, category := "dessert", imageUrl := none, isPopular := some false }
  , { id := "3", name := "Steamed Pork Buns (3 pieces)",
      description := "Fluffy steamed buns filled with tender pork and aromatic spices",
      price := 8.99, category := "main",
      imageUrl := some "https://example.com/pork-buns.jpg", isPopular := some true }
  , { id := "4", name := "Soup Dumplings (6 pieces)",
      description := "Delicate dumplings filled with pork and hot soup broth",
      price := 12.99, category := "main",
      imageUrl := some "https://example.com/soup-dumplings.jpg", isPopular := some true }
  , { id := "5", name := "Crispy Chicken Bao",
      description := "Crispy fried chicken in a soft bao bun with spicy mayo",
      price := 9.99, category := "main",
      imageUrl := some "https://example.com/crispy-chicken-bao.jpg", isPopular := some false }
  , { id := "6", name := "Vegetable Spring Rolls (4 pieces)",
      description := "Crispy spring rolls filled with fresh vegetables and glass noodles",
      price := 7.99, category := "appetizer",
      imageUrl := some "https://example.com/spring-rolls.jpg", isPopular := some false }
  , { id := "7", name := "Hot & Sour Soup",
      description := "Traditional Chinese soup with tofu, mushrooms, and bamboo shoots",
      price := 6.99, category := "appetizer",
      imageUrl := some "https://example.com/hot-sour-soup.jpg", isPopular := some false }
  , { id := "8", name := "Walnut Shrimp Bao",
      description := "Sweet and crispy shrimp with candied walnuts in a bao bun",
      price := 11.99, category := "main",
      imageUrl := some "https://example.com/walnut-shrimp-bao.jpg", isPopular := some true }
  , { id := "9", name := "Green Tea Ice Cream",
      description := "Smooth green tea ice cream with a subtle, refreshing flavor",
      price := 4.99, category := "dessert",
      imageUrl := some "https://example.com/green-tea-ice-cream.jpg", isPopular := some false }
  , { id := "10", name := "Bubble Tea (Taro)",
      description := "Creamy taro bubble tea with chewy tapioca pearls",
      price := 5.99, category := "drink",
      imageUrl := some "https://example.com/bubble-tea.jpg", isPopular := some false }
  , { id := "11", name := "Beef Noodle Soup",
      description := "Rich beef broth with tender beef, noodles, and vegetables",
      price := 14.99, category := "main",
      imageUrl := some "https://example.com/beef-noodle-soup.jpg", isPopular := some false }
  , { id := "12", name := "Dim Sum Platter",
      description := "Assorted dim sum including dumplings, buns, and rolls",
      price := 16.99, category := "main",
      imageUrl := some "https://example.com/dim-sum-platter.jpg", isPopular := some true }
  , { id := "13", name := "Kung Pao Chicken",
      description := "Spicy diced chicken with peanuts, vegetables, and chili peppers",
      price := 13.99, category := "main",
      imageUrl := some "https://example.com/kung-pao-chicken.jpg", isPopular := some false }
  , { id := "14", name := "Sweet & Sour Pork",
      description := "Crispy pork in tangy sweet and sour sauce with pineapple",
      price := 12.99, category := "main",
      imageUrl := some "https://example.com/sweet-sour-pork.jpg", isPopular := some false }
  , { id := "15", name := "Mapo Tofu",
      description := "Spicy tofu with ground pork in a rich, flavorful sauce",
      price := 11.99, category := "main",
      imageUrl := some "https://example.com/mapo-tofu.jpg", isPopular := some false }
  , { id := "16", name := "Wonton Soup",
      description := "Clear broth with delicate wontons filled with pork and shrimp",
      price := 8.99, category := "appetizer",
      imageUrl := some "https://example.com/wonton-soup.jpg", isPopular := some false }
  , { id := "17", name := "Egg Fried Rice",
      description := "Classic fried rice with eggs, vegetables, and soy sauce",
      price := 9.99, category := "side",
      imageUrl := some "https://example.com/egg-fried-rice.jpg", isPopular := some false }
  , { id := "18", name := "Stir-Fried Vegetables",
      description := "Fresh seasonal vegetables in light garlic sauce",
      price := 8.99, category := "side",
      imageUrl := some "https://example.com/stir-fried-vegetables.jpg", isPopular := some false }
  , { id := "19", name := "Mango Pudding",
      description := "Smooth mango pudding with fresh mango pieces",
      price := 4.99, category := "dessert",
      imageUrl := some "https://example.com/mango-pudding.jpg", isPopular := some false }
  , { id := "20", name := "Jasmine Tea",
      description := "Traditional jasmine tea served hot",
      price := 2.99, category := "drink", imageUrl := none, isPopular := some false }
  , { id := "21", name := "Lychee Bubble Tea",
      description := "Refreshing lychee bubble tea with chewy tapioca pearls",
      price := 5.99, category := "drink",
      imageUrl := some "https://example.com/lychee-bubble-tea.jpg", isPopular := some false }
  , { id := "22", name := "Szechuan Beef",
      description := "Spicy beef with vegetables in authentic Szechuan sauce",
      price := 15.99, category := "main",
      imageUrl := some "https://example.com/szechuan-beef.jpg", isPopular := some false }
  , { id := "23", name := "Honey Garlic Chicken",
      description := "Crispy chicken in sweet honey garlic sauce",
      price := 13.99, category := "main",
      imageUrl := some "https://example.com/honey-garlic-chicken.jpg", isPopular := some false }
  , { id := "24", name := "Steamed Rice",
      description := "Fluffy steamed white rice",
      price := 2.99, category := "side", imageUrl := none, isPopular := some false }
  , { id := "25", name := "Fortune Cookie",
      description := "Traditional fortune cookie with a lucky message",
      price := 0.99, category := "dessert", imageUrl := none, isPopular := some false } ]

/-- The generic Bao House mock menu (10 items). -/
def baoGenericMenuItems : List MenuItem :=
  [ { id := "1", name := "Steamed Pork Buns (3 pieces)",
      description := "Fluffy steamed buns filled with tender pork and aromatic spices",
      price := 8.99, category := "main",
      imageUrl := some "https://example.com/pork-buns.jpg", isPopular := some true }
  , { id := "2", name := "Soup Dumplings (6 pieces)",
      description := "Delicate dumplings filled with pork and hot soup broth",
      price := 12.99, category := "main",
      imageUrl := some "https://example.com/soup-dumplings.jpg", isPopular := some true }
  , { id := "3", name := "Crispy Chicken Bao",
      description := "Crispy fried chicken in a soft bao bun with spicy mayo",
      price := 9.99, category := "main",
      imageUrl := some "https://example.com/crispy-chicken-bao.jpg", isPopular := some false }
  , { id := "4", name := "Vegetable Spring Rolls (4 pieces)",
      description := "Crispy spring rolls filled with fresh vegetables and glass noodles",
      price := 7.99, category := "appetizer",
      imageUrl := some "https://example.com/spring-rolls.jpg", isPopular := some false }
  , { id := "5", name := "Hot & Sour Soup",
      description := "Traditional Chinese soup with tofu, mushrooms, and bamboo shoots",
      price := 6.99, category := "appetizer",
      imageUrl := some "https://example.com/hot-sour-soup.jpg", isPopular := some false }
  , { id := "6", name := "Walnut Shrimp Bao",
      description := "Sweet and crispy shrimp with candied walnuts in a bao bun",
      price := 11.99, category := "main",
      imageUrl := some "https://example.com/walnut-shrimp-bao.jpg", isPopular := some true }
  , { id := "7", name := "Green Tea Ice Cream",
      description := "Smooth green tea ice cream with a subtle, refreshing flavor",
      price := 4.99, category := "dessert",
      imageUrl := some "https://example.com/green-tea-ice-cream.jpg", isPopular := some false }
  , { id := "8", name := "Bubble Tea (Taro)",
      description := "Creamy taro bubble tea with chewy tapioca pearls",
      price := 5.99, category := "drink",
      imageUrl := some "https://example.com/bubble-tea.jpg", isPopular := some false }
  , { id := "9", name := "Beef Noodle Soup",
      description := "Rich beef broth with tender beef, noodles, and vegetables",
      price := 14.99, category := "main",
      imageUrl := some "https://example.com/beef-noodle-soup.jpg", isPopular := some false }
  , { id := "10", name := "Dim Sum Platter",
      description := "Assorted dim sum including dumplings, buns, and rolls",
      price := 16.99, category := "main",
      imageUrl := some "https://example.com/dim-sum-platter.jpg", isPopular := some true } ]

/-- The default mock menu for non-Bao restaurants (5 items). -/
def defaultMockMenuItems : List MenuItem :=
  [ { id := "1", name := "Margherita Pizza",
      description := "Fresh mozzarella, tomato sauce, and basil on our signature crust",
      price := 18.99, category := "main",
      imageUrl := some "https://example.com/margherita.jpg", isPopular := some true }
  , { id := "2", name := "Pepperoni Pizza",
      description := "Classic pepperoni with melted cheese and tomato sauce",
      price := 20.99, category := "main",
      imageUrl := some "https://example.com/pepperoni.jpg", isPopular := some true }
  , { id := "3", name := "Caesar Salad",
      description := "Crisp romaine lettuce, parmesan cheese, croutons, and caesar dressing",
      price := 12.99, category := "appetizer",
      imageUrl := some "https://example.com/caesar-salad.jpg", isPopular := some false }
  , { id := "4", name := "Garlic Bread",
      description := "Toasted bread with garlic butter and herbs",
      price := 6.99, category := "appetizer",
      imageUrl := some "https://example.com/garlic-bread.jpg", isPopular := some false }
  , { id := "5", name := "Chocolate Lava Cake",
      description := "Warm chocolate cake with molten center, served with vanilla ice cream",
      price := 8.99, category := "dessert",
      imageUrl := some "https://example.com/chocolate-lava-cake.jpg", isPopular := some false } ]

/-- Function `mockScrape(restaurantUrl, options)`: the deterministic degradation
fallback — restaurant name from the URL, a fixed synthetic item list chosen
by name/URL keywords, then the `maxItems` truncation and `categories`
filter of the options. -/
def mockScrape (restaurantUrl : String) (opts : ScrapingOptions) (now : Nat) : RestaurantMenu :=
  let restaurantName :=
    match partAfterStore (splitCharOn '/' restaurantUrl.data) with
    | some q => String.mk (cleanStorePartMock q)
    | none => "Mock Restaurant"
  let lower := toLowerStr restaurantName
  let mockMenuItems :=
    if strContains lower "bao" || strContains lower "house" then
      if strContains lower "yonge" || strContains lower "wellesley" ||
         strContains restaurantUrl "yonge%26wellesley" ||
         strContains restaurantUrl "yonge&wellesley" then baoYongeMenuItems
      else baoGenericMenuItems
    else defaultMockMenuItems
  let filtered1 :=
    if jsTruthyNat opts.maxItems then mockMenuItems.take (opts.maxItems.getD 0)
    else mockMenuItems
  let filtered2 :=
    match opts.categories with
    | some cs =>
      if cs.length > 0 then filtered1.filter (fun it => cs.contains it.category)
      else filtered1
    | none => filtered1
  { restaurantName := String.mk (capitalizeChars restaurantName.data)
    restaurantUrl := restaurantUrl
    menuItems := filtered2
    categories := dedupFirst (filtered2.map (fun it => it.category))
    scrapedAt := now }

/-! ### `realScrape` and the retry wrapper -/

/-- The body of `realScrape` once a page has loaded: sectioned extraction,
then page-wide extraction, then scroll-and-retry, then the mock fallback.
Returns the menu and whether `browser.close()` ran before returning
(the source closes the browser only on the final general-extraction
return path). -/
def realScrapePage (url : String) (opts : ScrapingOptions) (page : PageModel)
    (now : Nat) : RestaurantMenu × Bool :=
  let restaurantName := extractRestaurantName page.title url
  let sectionItems := sectionedExtract opts page
  if !sectionItems.isEmpty then
    (mkMenu restaurantName url sectionItems now, false)
  else
    let menuItems := extractMenuItems opts page.priceNodes page.generalNodeLists
    if menuItems.isEmpty then
      let afterScroll :=
        extractMenuItems opts page.afterScrollPriceNodes page.afterScrollGeneralNodeLists
      if !afterScroll.isEmpty then
        (mkMenu restaurantName url afterScroll now, false)
      else (mockScrape url opts now, false)
    else (mkMenu restaurantName url menuItems now, true)

/-- Function `realScrape(restaurantUrl, options)`: Bao House URLs short-circuit to
the mock, otherwise a browser is launched and the page environment
(`Except`: load failure or a loaded `PageModel`) drives the cascade; a
thrown transport error is re-raised after `browser.close()` in the catch
block. -/
def realScrape (url : String) (opts : ScrapingOptions)
    (env : Except String PageModel) (now : Nat) : ScrapeOutcome :=
  if strContains url "bao-house" || strContains url "bao-housenorth-york" then
    { result := Except.ok (mockScrape url opts now)
      browserLaunched := false, browserClosed := false }
  else
    match env with
    | Except.error e =>
      { result := Except.error e, browserLaunched := true, browserClosed := true }
    | Except.ok page =>
      { result := Except.ok (realScrapePage url opts page now).1
        browserLaunched := true
        browserClosed := (realScrapePage url opts page now).2 }

/-- Field `maxRetries` of `UberEatsScraper`. -/
def maxRetries : Nat := 3

/-- Field `retryDelay` of `UberEatsScraper` (milliseconds). -/
def retryDelay : Nat := 1000

/-- The attempt loop of `scrapeRestaurantMenu`: `remaining` attempts left,
`k` the 1-based attempt number, `elapsed` the accumulated backoff delay,
`lastErr` the last caught error.  The oracle gives the outcome of
`realScrape` on each attempt. -/
def scrapeGo (oracle : Nat → Except String RestaurantMenu) :
    Nat → Nat → Nat → String → Except String RestaurantMenu × Nat
  | 0, _, elapsed, lastErr =>
    (Except.error ("Failed to scrape restaurant menu after 3 attempts: " ++ lastErr), elapsed)
  | r + 1, k, elapsed, _lastErr =>
    match oracle k with
    | Except.ok m => (Except.ok m, elapsed)
    | Except.error e =>
      if r = 0 then scrapeGo oracle r (k + 1) elapsed e
      else scrapeGo oracle r (k + 1) (elapsed + retryDelay * 2 ^ (k - 1)) e

/-- Function `scrapeRestaurantMenu(restaurantUrl, options)`: up to `maxRetries`
attempts with exponential backoff (`retryDelay * 2^(attempt-1)` between
attempts); the second component is the total backoff delay waited. -/
def scrapeRestaurantMenu (oracle : Nat → Except String RestaurantMenu) :
    Except String RestaurantMenu × Nat :=
  scrapeGo oracle maxRetries 1 0 ""

/-- The order realized by the comparator `(a, b) => b.price - a.price`:
`a` sorts no later than `b` when `a` has the larger-or-equal price. -/
def priceGE (a b : MenuItem) : Prop := b.price ≤ a.price

instance : DecidableRel priceGE :=
  fun a b => inferInstanceAs (Decidable (b.price ≤ a.price))

instance : IsTotal MenuItem priceGE := ⟨fun a b => le_total b.price a.price⟩

instance : IsTrans MenuItem priceGE := ⟨fun _ _ _ hab hbc => le_trans hbc hab⟩

/-- Function `getExpensiveItems(menu, limit)`: `menu.menuItems.sort((a, b) =>
b.price - a.price).slice(0, limit)` — JavaScript `sort` produces a stable
descending-price permutation and mutates the array in place, so the
returned pair carries both the slice and the menu with its `menuItems` now
in descending-price order. -/
def getExpensiveItems (menu : RestaurantMenu) (limit : Nat) :
    List MenuItem × RestaurantMenu :=
  let sorted := List.insertionSort priceGE menu.menuItems
  (sorted.take limit, { menu with menuItems := sorted })

/-! ### Apify-based scraper (`ApifyUberEatsScraper`, second document of
`discordLogger.ts`) -/

/-- One raw record of an Apify dataset item as `parseApifyResult` reads it:
every field may be absent (`unknown` cast in the source). -/
structure ApifyItemRecord where
  id : Option String := none
  name : Option String := none
  description : Option String := none
  priceNum : Option ℚ := none
  priceStr : Option String := none
  priceOther : Bool := false
  category : Option String := none
  imageUrl : Option String := none
  isPopular : Option Bool := none
deriving DecidableEq, Repr

/-- Whether `itemData.price !== undefined` holds for a record: some price
value (number, string, or another type) is present. -/
def apifyPriceDefined (r : ApifyItemRecord) : Bool :=
  r.priceNum.isSome || r.priceStr.isSome || r.priceOther

/-- One top-level record of the Apify dataset: `parseApifyResult` reads
`restaurantName` and `menuItems` from the first record, and in the
fallback branch treats every top-level record itself as an item record
(the `itemFields` facet). -/
structure ApifyRecord where
  restaurantName : Option String := none
  menuItems : Option (List ApifyItemRecord) := none
  itemFields : ApifyItemRecord := {}
deriving DecidableEq, Repr

/-- Method `ApifyUberEatsScraper.extractRestaurantNameFromUrl`: the source
takes the first `/`-separated URL part containing `store` and then indexes
`.split('/')[1]` on it — but a part of a `/`-split contains no `/`, so that
index is always `undefined` and the function always returns
`'Unknown Restaurant'` (the cleanup chain is dead code). -/
def extractRestaurantNameFromUrl (url : String) : String :=
  let storePart :=
    match (splitCharOn '/' url.data).find? (fun part => hasSubChars "store".data part) with
    | some p => ((splitCharOn '/' p).drop 1).head?
    | none => none
  match storePart with
  | some q => if q.isEmpty then "Unknown Restaurant" else String.mk (cleanStorePartMock q)
  | none => "Unknown Restaurant"

/-- Method `ApifyUberEatsScraper.parsePrice`: a number passes through, a
string is stripped to digits, dots and commas, its first comma replaced by
a dot, and read with `parseFloat` (`NaN` mapped to 0); anything else is 0. -/
def apifyParsePrice (r : ApifyItemRecord) : ℚ :=
  match r.priceNum with
  | some q => q
  | none =>
    match r.priceStr with
    | some s =>
      let clean := replaceFirstSub [','] ['.']
        (s.data.filter (fun c => c.isDigit || c = '.' || c = ','))
      let intDigits := clean.takeWhile Char.isDigit
      let rest := clean.dropWhile Char.isDigit
      let fracDigits :=
        match rest with
        | '.' :: t => t.takeWhile Char.isDigit
        | _ => []
      if intDigits.isEmpty && fracDigits.isEmpty then 0
      else (natOfDigits intDigits : ℚ) +
        (natOfDigits fracDigits : ℚ) / (10 ^ fracDigits.length : ℚ)
    | none => 0

/-- The per-record body of the `forEach` loops in `parseApifyResult`: a
record is kept only when `itemData.name` is truthy and `itemData.price` is
not `undefined`; the built item defaults `id` to `item-(index+1)`,
`description` to the empty string, `category` to `main`, drops an empty
`imageUrl`, and coalesces `isPopular` to `false`. -/
def apifyItemToMenuItem (r : ApifyItemRecord) (index : Nat) : Option MenuItem :=
  match r.name with
  | none => none
  | some nm =>
    if nm = "" then none
    else if !apifyPriceDefined r then none
    else some
      { id :=
          match r.id with
          | some i => if i = "" then "item-" ++ toString (index + 1) else i
          | none => "item-" ++ toString (index + 1)
        name := nm
        description := r.description.getD ""
        price := apifyParsePrice r
        category :=
          match r.category with
          | some c => if c = "" then "main" else c
          | none => "main"
        imageUrl :=
          match r.imageUrl with
          | some u => if u = "" then none else some u
          | none => none
        isPopular := some (r.isPopular.getD false) }

/-- The `forEach((item, index) => ...)` loop of `parseApifyResult`: the
index runs over all records (kept or dropped). -/
def apifyItemsToMenuItems : Nat → List ApifyItemRecord → List MenuItem
  | _, [] => []
  | idx, r :: rest =>
    match apifyItemToMenuItem r idx with
    | some it => it :: apifyItemsToMenuItems (idx + 1) rest
    | none => apifyItemsToMenuItems (idx + 1) rest

/-- Method `ApifyUberEatsScraper.parseApifyResult(apifyData, restaurantUrl)`:
restaurant name from the first record (URL fallback), items from the first
record's `menuItems` array when present, else from the top-level records;
`categories` is `Array.from` of a `Set` populated with each pushed item's
category, i.e. the first-occurrence de-duplication of the category
projection of the kept items. -/
def parseApifyResult (apifyData : List ApifyRecord) (restaurantUrl : String)
    (now : Nat) : RestaurantMenu :=
  let restaurantInfo := apifyData.head?.getD {}
  let restaurantName :=
    match restaurantInfo.restaurantName with
    | some s => if s = "" then extractRestaurantNameFromUrl restaurantUrl else s
    | none => extractRestaurantNameFromUrl restaurantUrl
  let menuItems :=
    match restaurantInfo.menuItems with
    | some items => apifyItemsToMenuItems 0 items
    | none => apifyItemsToMenuItems 0 (apifyData.map (fun r => r.itemFields))
  { restaurantName := restaurantName
    restaurantUrl := restaurantUrl
    menuItems := menuItems
    categories := dedupFirst (menuItems.map (fun it => it.category))
    scrapedAt := now }

/-- The five-item mock menu of `ApifyUberEatsScraper.getMockData`. -/
def apifyMockMenuItems : List MenuItem :=
  [ { id := "1", name := "Pickled Radish Skin 口口脆",
      description := "Crispy pickled radish skin with a tangy, refreshing flavor",
      price := 6.99, category := "appetizer",
      imageUrl := some "https://example.com/pickled-radish-skin.jpg", isPopular := some true }
  , { id := "2", name := "Deep Fired Bun 黄金小馒头 5pcs",
      description := "Golden deep-fried buns served with sweetened condensed milk",
      price := 5.99, category := "dessert", imageUrl := none, isPopular := some false }
  , { id := "3", name := "Steamed Pork Buns (3 pieces)",
      description := "Fluffy steamed buns filled with tender pork and aromatic spices",
      price := 8.99, category := "main",
      imageUrl := some "https://example.com/pork-buns.jpg", isPopular := some true }
  , { id := "4", name := "Soup Dumplings (6 pieces)",
      description := "Delicate dumplings filled with pork and hot soup broth",
      price := 12.99, category := "main",
      imageUrl := some "https://example.com/soup-dumplings.jpg", isPopular := some true }
  , { id := "5", name := "Crispy Chicken Bao",
      description := "Crispy fried chicken in a soft bao bun with spicy mayo",
      price := 9.99, category := "main",
      imageUrl := some "https://example.com/crispy-chicken-bao.jpg", isPopular := some false } ]

/-- Method `ApifyUberEatsScraper.getMockData(restaurantUrl, options)`: the
Apify-side mock fallback; its `options` parameter is unused by the source,
and its `categories` list is hardcoded as
`['appetizer', 'main', 'dessert']` rather than computed from the items. -/
def apifyGetMockData (restaurantUrl : String) (now : Nat) : RestaurantMenu :=
  { restaurantName := extractRestaurantNameFromUrl restaurantUrl
    restaurantUrl := restaurantUrl
    menuItems := apifyMockMenuItems
    categories := ["appetizer", "main", "dessert"]
    scrapedAt := now }

/-! ### Resolution pipeline (`UberEatsSearchEngine.realSearch`) -/

/-- The result list an adapter contributes: a thrown adapter
(`Except.error`) is caught by the per-method `try/catch` and contributes
nothing. -/
def resultsOf (x : Except String (List RestaurantSearchResult)) :
    List RestaurantSearchResult :=
  match x with
  | Except.ok rs => rs
  | Except.error _ => []

/-- The method loop of `realSearch`: try each search method once in order,
return the first non-empty result list; the second component counts how
many methods were invoked. -/
def runSearchMethods : List (Except String (List RestaurantSearchResult)) →
    List RestaurantSearchResult × Nat
  | [] => ([], 0)
  | m :: rest =>
    match m with
    | Except.ok rs =>
      if rs.isEmpty then
        let (r, n) := runSearchMethods rest
        (r, n + 1)
      else (rs, 1)
    | Except.error _ =>
      let (r, n) := runSearchMethods rest
      (r, n + 1)

/-- The fixed adapter priority order of `realSearch`. -/
def searchMethodNames : List String :=
  ["SerpAPI", "Playwright", "DuckDuckGo", "Direct URL"]

/-- Function `realSearch(restaurantName, options)`: the four search methods tried
once each, in the fixed order SerpAPI, Playwright, DuckDuckGo, Direct URL. -/
def realSearch (serp play duck direct : Except String (List RestaurantSearchResult)) :
    List RestaurantSearchResult × Nat :=
  runSearchMethods [serp, play, duck, direct]

/-- Function `extractLocationFromUrl(url)`: the last hyphen-separated segment of the
first URL component containing a hyphen, capitalized; `'Unknown'` otherwise. -/
def extractLocationFromUrl (url : String) : String :=
  match (splitCharOn '/' url.data).find? (fun part => part.contains '-') with
  | some storePart =>
    match (splitCharOn '-' storePart).getLast? with
    | some loc => String.mk (capitalizeChars loc)
    | none => "Unknown"
  | none => "Unknown"

/-- Method `SerpApiSearchEngine.searchRestaurants`: a missing API key returns `[]`
before any HTTP call; a thrown HTTP call is caught and returns `[]`; else
the organic results are filtered for UberEats store links and the first 3
are mapped to candidates. -/
def serpApiSearchRestaurants (apiKey restaurantName : String)
    (resp : Except String SerpResponse) : List RestaurantSearchResult :=
  if apiKey = "" then []
  else
    match resp with
    | Except.error _ => []
    | Except.ok r =>
      match r.organicResults with
      | none => []
      | some organic =>
        let ueResults := organic.filter (fun res =>
          match res.link with
          | some l => strContains l "ubereats.com/ca/store/"
          | none => false)
        (ueResults.take 3).map (fun res =>
          { name := restaurantName
            url := res.link.getD ""
            location := some (extractLocationFromUrl (res.link.getD ""))
            rating := some 4.0
            deliveryTime := some "20-30 min" })

/-! ### Canonical URL validator
(`DuckDuckGoSearchEngine.extractUberEatsUrls`) -/

/-- The store-URL filter applied to every regex-matched UberEats URL:
`url.includes('/ca/store/') && !url.includes('?')`. -/
def storeUrlFilter (url : String) : Bool :=
  strContains url "/ca/store/" && !(strContains url "?")

/-- Function `extractUberEatsUrls(html, restaurantName)` of the DuckDuckGo engine,
applied to the list of regex matches found in the HTML: de-duplicate,
keep store URLs without query markers, map to candidates. -/
def extractUberEatsUrls (urlMatches : List String) (restaurantName : String) :
    List RestaurantSearchResult :=
  ((dedupFirst urlMatches).filter storeUrlFilter).map (fun url =>
    { name := restaurantName
      url := url
      location := some (extractLocationFromUrl url)
      rating := some 4.0
      deliveryTime := some "20-30 min" })

/-- Menu items of a scrape outcome (empty on a thrown error). -/
def scrapedItems (o : ScrapeOutcome) : List MenuItem :=
  match o.result with
  | Except.ok m => m.menuItems
  | Except.error _ => []

/-! ### Concrete fixtures -/

/-- A well-formed menu-item node (name, price, two-line text). -/
def pizzaNode : Node :=
  { textContent := "Cheese Pizza\n$12.99"
    nameText := some "Cheese Pizza"
    priceText := some "$12.99" }

/-- A node with only whitespace text and no structured name. -/
def nodeBlank : Node := { textContent := "   " }

/-- A listing URL whose store component is not a Bao House pattern. -/
def listingUrlA : String := "https://www.ubereats.com/ca/store/testplace"

/-- A loaded page on which every extraction stage observes nothing. -/
def emptyPage : PageModel := {}

/-- A loaded page whose menu-section selector matches and yields one item. -/
def sectionPage : PageModel :=
  { sectionSelectorFound := true, sectionNodeLists := [[pizzaNode]] }

/-- A loaded page whose price-anchored stage yields one item. -/
def pricePage : PageModel := { priceNodes := [pizzaNode] }

/-- Options with `maxItems: 0` (falsy in the source) and a category filter. -/
def cexOptions : ScrapingOptions := { maxItems := some 0, categories := some ["drink"] }

/-- Options with a positive `maxItems`. -/
def boundedOptions : ScrapingOptions := { maxItems := some 2 }

/-- A small concrete menu. -/
def menuW : RestaurantMenu :=
  mkMenu "Test Bistro" "https://www.ubereats.com/ca/store/test-bistro-id" [] 0

/-- A per-attempt outcome oracle: transport faults on attempts 1 and 2,
success on attempt 3. -/
def oracleW : Nat → Except String RestaurantMenu :=
  fun k => if k = 3 then Except.ok menuW else Except.error "network timeout"

/-- A single search candidate. -/
def candB : RestaurantSearchResult :=
  { name := "Test Bistro", url := "https://www.ubereats.com/ca/store/test-bistro-id" }

/-! ### List and string helper lemmas -/

/-- The head of a nonempty `dropWhile` result fails the predicate. -/
theorem dropWhile_head_false {p : Char → Bool} :
    ∀ {l : List Char} {a t}, l.dropWhile p = a :: t → p a = false := by
  intro l
  induction l with
  | nil => intro a t h; simp [List.dropWhile] at h
  | cons c r ih =>
    intro a t h
    by_cases hp : p c = true
    · rw [List.dropWhile_cons_of_pos hp] at h
      exact ih h
    · rw [List.dropWhile_cons_of_neg hp] at h
      cases h
      simpa using hp

/-- A last element failing the predicate survives `dropWhile`. -/
theorem getLast_mem_dropWhile {p : Char → Bool} :
    ∀ {l : List Char} {a}, l.getLast? = some a → p a = false → a ∈ l.dropWhile p := by
  intro l
  induction l with
  | nil => intro a h _; simp at h
  | cons c r ih =>
    intro a h hpa
    cases r with
    | nil =>
      simp at h
      subst h
      simp [List.dropWhile, hpa]
    | cons y t =>
      rw [List.getLast?_cons_cons] at h
      by_cases hp : p c = true
      · rw [List.dropWhile_cons_of_pos hp]
        exact ih h hpa
      · rw [List.dropWhile_cons_of_neg hp]
        exact List.mem_cons_of_mem c (((y :: t).dropWhile_sublist p).mem (ih h hpa))

/-- A character list whose trim is empty consists of whitespace. -/
theorem all_ws_of_trim_eq_nil {l : List Char} (h : trimChars l = []) :
    ∀ c ∈ l, jsIsWS c = true := by
  have h1 : (l.dropWhile jsIsWS).reverse.dropWhile jsIsWS = [] := by
    have := congrArg List.reverse h
    simpa [trimChars] using this
  have h3 : l.dropWhile jsIsWS = [] := by
    cases hu : l.dropWhile jsIsWS with
    | nil => rfl
    | cons a t =>
      have hpa : jsIsWS a = false := dropWhile_head_false hu
      have ha : jsIsWS a = true := by
        have := List.dropWhile_eq_nil_iff.mp h1 a (by simp [hu])
        simpa using this
      rw [hpa] at ha
      cases ha
  exact fun c hc => List.dropWhile_eq_nil_iff.mp h3 c hc

/-- A trim consisting only of whitespace is empty (trimming leaves a
non-whitespace character at both ends whenever anything is left). -/
theorem trim_eq_nil_of_all_ws {l : List Char}
    (h : ∀ c ∈ trimChars l, jsIsWS c = true) : trimChars l = [] := by
  cases hu : l.dropWhile jsIsWS with
  | nil => simp [trimChars, hu]
  | cons a t =>
    have hpa : jsIsWS a = false := dropWhile_head_false hu
    have hlast : (a :: t).reverse.getLast? = some a := by
      rw [List.getLast?_reverse]; rfl
    have hmem : a ∈ ((a :: t).reverse).dropWhile jsIsWS :=
      getLast_mem_dropWhile hlast hpa
    have hmem2 : a ∈ trimChars l := by
      simp only [trimChars, hu]
      simpa using hmem
    have := h a hmem2
    rw [hpa] at this
    cases this

/-- Splitting into lines never yields the empty list. -/
theorem splitLinesChars_ne_nil : ∀ (t : List Char), splitLinesChars t ≠ [] := by
  intro t
  cases t with
  | nil => simp [splitLinesChars]
  | cons c rest =>
    by_cases hc : c = '\n'
    · simp [splitLinesChars, hc]
    · simp only [splitLinesChars, if_neg hc]
      cases hr : splitLinesChars rest with
      | nil => simp
      | cons l ls => simp

/-- When every line of a text is whitespace, the whole text is whitespace
(newlines are whitespace). -/
theorem all_ws_of_lines_all_ws :
    ∀ (t : List Char), (∀ l ∈ splitLinesChars t, ∀ c ∈ l, jsIsWS c = true) →
      ∀ c ∈ t, jsIsWS c = true := by
  intro t
  induction t with
  | nil => intro _ c hc; cases hc
  | cons c0 rest ih =>
    intro h c hc
    by_cases hc0 : c0 = '\n'
    · have hrest : ∀ l ∈ splitLinesChars rest, ∀ c ∈ l, jsIsWS c = true := by
        intro l hl
        exact h l (by simp [splitLinesChars, hc0, hl])
      rcases List.mem_cons.mp hc with rfl | hcr
      · rw [hc0]; decide
      · exact ih hrest c hcr
    · cases hr : splitLinesChars rest with
      | nil => exact absurd hr (splitLinesChars_ne_nil rest)
      | cons l ls =>
        have hsplit : splitLinesChars (c0 :: rest) = (c0 :: l) :: ls := by
          simp [splitLinesChars, hc0, hr]
        have hhead : ∀ x ∈ c0 :: l, jsIsWS x = true := by
          intro x hx
          exact h (c0 :: l) (by simp [hsplit]) x hx
        have hrest : ∀ l2 ∈ splitLinesChars rest, ∀ c2 ∈ l2, jsIsWS c2 = true := by
          intro l2 hl2 c2 hc2
          rw [hr] at hl2
          rcases List.mem_cons.mp hl2 with rfl | hls
          · exact hhead c2 (List.mem_cons_of_mem c0 hc2)
          · exact h l2 (by simp [hsplit, hls]) c2 hc2
        rcases List.mem_cons.mp hc with rfl | hcr
        · exact hhead c (List.mem_cons_self c l)
        · exact ih hrest c hcr

/-- The substring scan agrees with the mathematical infix relation. -/
theorem hasSubChars_iff_infix :
    ∀ (n h : List Char), hasSubChars n h = true ↔ n <:+: h := by
  intro n h
  induction h with
  | nil =>
    simp [hasSubChars, List.isEmpty_iff, List.infix_nil]
  | cons c rest ih =>
    simp only [hasSubChars, Bool.or_eq_true, List.isPrefixOf_iff_prefix, ih,
      List.infix_cons_iff]

/-! ### Helper lemmas about the scraper embedding -/

/-- Menus built by `mkMenu` carry the de-duplicated category projection. -/
theorem mkMenu_categories (name url : String) (items : List MenuItem) (now : Nat) :
    (mkMenu name url items now).categories =
      dedupFirst ((mkMenu name url items now).menuItems.map (fun it => it.category)) := rfl

/-- Mock menus carry the de-duplicated category projection. -/
theorem mockScrape_categories (url : String) (opts : ScrapingOptions) (now : Nat) :
    (mockScrape url opts now).categories =
      dedupFirst ((mockScrape url opts now).menuItems.map (fun it => it.category)) := rfl

/-- Every branch of the loaded-page cascade yields a menu carrying the
de-duplicated category projection. -/
theorem realScrapePage_categories (url : String) (opts : ScrapingOptions)
    (page : PageModel) (now : Nat) :
    ((realScrapePage url opts page now).1).categories =
      dedupFirst (((realScrapePage url opts page now).1).menuItems.map
        (fun it => it.category)) := by
  unfold realScrapePage
  dsimp only
  repeat' split
  · exact mkMenu_categories _ _ _ _
  · exact mkMenu_categories _ _ _ _
  · exact mockScrape_categories _ _ _
  · exact mkMenu_categories _ _ _ _

/-- A set positive `maxItems` is not coalesced to a default. -/
theorem jsOrNat_some {k : Nat} (h : k ≠ 0) (d : Nat) : jsOrNat (some k) d = k := by
  simp [jsOrNat, h]

/-- The per-selector loop keeps at most `b` items. -/
theorem processNodes_length_le :
    ∀ (b idx : Nat) (ns : List Node), (processNodes b idx ns).length ≤ b := by
  intro b
  induction b with
  | zero => intro idx ns; cases ns <;> simp [processNodes]
  | succ b ih =>
    intro idx ns
    cases ns with
    | nil => simp [processNodes]
    | cons n rest =>
      unfold processNodes
      cases extractMenuItemData n idx with
      | none => exact Nat.le_succ_of_le (ih (idx + 1) rest)
      | some it => simpa using ih (idx + 1) rest

/-- The selector cascade keeps at most `b` items. -/
theorem selectorCascade_length_le :
    ∀ (b : Nat) (ls : List (List Node)), (selectorCascade b ls).length ≤ b := by
  intro b ls
  induction ls with
  | nil => simp [selectorCascade]
  | cons ns rest ih =>
    unfold selectorCascade
    dsimp only
    split
    · exact ih
    · exact processNodes_length_le b 1 ns

/-- Section extraction respects the `maxItems || 50` bound. -/
theorem sectionedExtract_length_le (opts : ScrapingOptions) (page : PageModel) :
    (sectionedExtract opts page).length ≤ jsOrNat opts.maxItems 50 := by
  unfold sectionedExtract
  split
  · exact selectorCascade_length_le _ _
  · simp

/-- Page-wide extraction respects a set positive `maxItems`. -/
theorem extractMenuItems_length_le {opts : ScrapingOptions} {k : Nat}
    (hk : opts.maxItems = some k) (h0 : k ≠ 0)
    (priceNodes : List Node) (generalNodeLists : List (List Node)) :
    (extractMenuItems opts priceNodes generalNodeLists).length ≤ k := by
  unfold extractMenuItems
  dsimp only
  simp only [hk, jsOrNat_some h0]
  by_cases he : priceNodes.isEmpty = true
  · simp [he, selectorCascade_length_le k generalNodeLists]
  · simp only [he, if_neg, Bool.false_eq_true, if_false]
    split
    · exact selectorCascade_length_le k generalNodeLists
    · exact processNodes_length_le k 1 priceNodes

/-- The mock menu respects a set positive `maxItems`. -/
theorem mockScrape_length_le {opts : ScrapingOptions} {k : Nat}
    (hk : opts.maxItems = some k) (h0 : k ≠ 0) (url : String) (now : Nat) :
    (mockScrape url opts now).menuItems.length ≤ k := by
  have hbase : ∀ l : List MenuItem, (l.take k).length ≤ k := fun l => by
    simpa using List.length_take_le k l
  have htr : jsTruthyNat opts.maxItems = true := by simp [jsTruthyNat, hk, h0]
  unfold mockScrape
  dsimp only
  rw [htr, hk]
  cases hcat : opts.categories with
  | none => simpa using hbase _
  | some cs =>
    by_cases hlen : cs.length > 0
    · simp only [hcat, if_pos hlen]
      calc _ ≤ _ := List.length_filter_le _ _
        _ ≤ k := hbase _
    · simp only [hcat, if_neg hlen]
      simpa using hbase _

/-- Every branch of the loaded-page cascade respects a set positive
`maxItems`. -/
theorem realScrapePage_length_le {opts : ScrapingOptions} {k : Nat}
    (hk : opts.maxItems = some k) (h0 : k ≠ 0) (url : String)
    (page : PageModel) (now : Nat) :
    ((realScrapePage url opts page now).1).menuItems.length ≤ k := by
  have hsec : (sectionedExtract opts page).length ≤ k := by
    have := sectionedExtract_length_le opts page
    rwa [hk, jsOrNat_some h0] at this
  unfold realScrapePage
  dsimp only
  split
  · exact hsec
  · split
    · split
      · exact extractMenuItems_length_le hk h0 _ _
      · exact mockScrape_length_le hk h0 url now
    · exact extractMenuItems_length_le hk h0 _ _

/-- The method loop stops at the first adapter producing candidates and
counts exactly the methods before it as invoked. -/
theorem runSearchMethods_first_hit :
    ∀ (pre : List (Except String (List RestaurantSearchResult)))
      (m : Except String (List RestaurantSearchResult))
      (post : List (Except String (List RestaurantSearchResult)))
      (rs : List RestaurantSearchResult),
      (∀ x ∈ pre, resultsOf x = []) → m = Except.ok rs → rs ≠ [] →
      runSearchMethods (pre ++ m :: post) = (rs, pre.length + 1) := by
  intro pre
  induction pre with
  | nil =>
    intro m post rs _ hm hrs
    subst hm
    simp [runSearchMethods, List.isEmpty_iff, hrs]
  | cons x pre ih =>
    intro m post rs hpre hm hrs
    have hx : resultsOf x = [] := hpre x (List.mem_cons_self x pre)
    have hrec := ih m post rs (fun y hy => hpre y (List.mem_cons_of_mem x hy)) hm hrs
    cases x with
    | ok xs =>
      have hxs : xs = [] := by simpa [resultsOf] using hx
      subst hxs
      simp [runSearchMethods, hrec]
    | error e =>
      simp [runSearchMethods, hrec]

/-! ### Claim theorems -/

/-- C1 (counterexample): on a listing URL and loaded page where the full
extraction cascade finds zero menu items, `realScrape` does not return a
menu with empty items — it returns the non-empty mock fallback menu. -/
theorem c1_zero_item_counterexample :
    ¬ ((realScrape listingUrlA {} (Except.ok emptyPage) 0).result.toOption.map
        (fun m => m.menuItems) = some []) := by decide

/-- C1 (amended): for every listing URL on which the full extraction
cascade (sectioned extraction, then page-wide price-anchored extraction,
then scroll-and-retry) finds zero menu items, `realScrape` does not throw
for this zero-item outcome: it returns, as an ordinary value, the
deterministic mock/degradation-fallback menu for that URL (in general
non-empty) instead of a menu with empty items. -/
theorem c1_zero_item_returns_mock :
    ∀ (url : String) (opts : ScrapingOptions) (page : PageModel) (now : Nat),
      sectionedExtract opts page = [] →
      extractMenuItems opts page.priceNodes page.generalNodeLists = [] →
      extractMenuItems opts page.afterScrollPriceNodes page.afterScrollGeneralNodeLists = [] →
      (realScrape url opts (Except.ok page) now).result =
        Except.ok (mockScrape url opts now) := by
  intro url opts page now h1 h2 h3
  unfold realScrape
  split
  · rfl
  · unfold realScrapePage
    dsimp only
    rw [h1, h2, h3]
    simp

/-- Witness for C1: on a page where every extraction stage observes
nothing, the scrape returns the mock menu. -/
theorem c1_zero_item_witness :
    (realScrape listingUrlA {} (Except.ok emptyPage) 0).result =
      Except.ok (mockScrape listingUrlA {} 0) :=
  c1_zero_item_returns_mock listingUrlA {} emptyPage 0 rfl rfl rfl

/-- C2: every `MenuItem` produced by per-node extraction has a non-empty
name, and a node whose structured name extraction fails (trimmed structured
name empty) and whose text yields no non-empty trimmed line is discarded
entirely (`none`), never stored with a placeholder name. -/
theorem c2_item_name_nonempty :
    (∀ (node : Node) (idx : Nat) (it : MenuItem),
        extractMenuItemData node idx = some it → it.name ≠ "")
    ∧ (∀ (node : Node) (idx : Nat),
        strTrim (node.nameText.getD "") = "" →
        (splitLinesChars (strTrim node.textContent).data).filter
          (fun l => !(trimChars l).isEmpty) = [] →
        extractMenuItemData node idx = none) := by
  constructor
  · intro node idx it h
    by_cases hr : isReviewText (strTrim node.textContent) = true
    · rw [extractMenuItemData, if_pos hr] at h
      cases h
    · rw [extractMenuItemData, if_neg hr] at h
      by_cases hn : extractItemName node idx = ""
      · rw [if_pos hn] at h
        cases h
      · rw [if_neg hn] at h
        have := Option.some.inj h
        rw [← this]
        simpa using hn
  · intro node idx h1 h2
    have hall : ∀ l ∈ splitLinesChars (strTrim node.textContent).data,
        ∀ c ∈ l, jsIsWS c = true := by
      intro l hl c hc
      have hfl := List.filter_eq_nil_iff.mp h2 l hl
      have htl : trimChars l = [] := by
        by_contra hne
        exact hfl (by simpa [List.isEmpty_iff] using hne)
      exact all_ws_of_trim_eq_nil htl c hc
    have hall2 : ∀ c ∈ trimChars node.textContent.data, jsIsWS c = true :=
      all_ws_of_lines_all_ws _ hall
    have htc : strTrim node.textContent = "" := by
      show String.mk (trimChars node.textContent.data) = ""
      rw [trim_eq_nil_of_all_ws hall2]
    have hname : extractItemName node idx = "" := by
      unfold extractItemName
      rw [if_neg (by simpa using h1), if_neg (by simp [htc])]
    by_cases hr : isReviewText (strTrim node.textContent) = true
    · rw [extractMenuItemData, if_pos hr]
    · rw [extractMenuItemData, if_neg hr, if_pos hname]

/-- Witness for C2: a node with only whitespace text and no structured name
is discarded. -/
theorem c2_item_name_witness :
    extractMenuItemData nodeBlank 1 = none :=
  c2_item_name_nonempty.2 nodeBlank 1 rfl rfl

/-- C3: the resolution pipeline tries its adapters sequentially in the
fixed priority order SerpAPI, Playwright, DuckDuckGo, Direct URL (the
`realSearch` argument order) and returns the first adapter's candidates as
soon as some adapter produces at least one candidate, invoking exactly the
adapters up to and including it; in particular with adapter A empty and
adapter B returning one candidate, the output equals B's candidate and
only 2 methods are invoked, so adapter C is invoked zero times. -/
theorem c3_adapter_priority_first_hit :
    (∀ (pre : List (Except String (List RestaurantSearchResult)))
       (m : Except String (List RestaurantSearchResult))
       (post : List (Except String (List RestaurantSearchResult)))
       (rs : List RestaurantSearchResult),
       (∀ x ∈ pre, resultsOf x = []) → m = Except.ok rs → rs ≠ [] →
       runSearchMethods (pre ++ m :: post) = (rs, pre.length + 1))
    ∧ (∀ (duck direct : Except String (List RestaurantSearchResult))
         (b : RestaurantSearchResult),
         realSearch (Except.ok []) (Except.ok [b]) duck direct = ([b], 2)) := by
  refine ⟨runSearchMethods_first_hit, ?_⟩
  intro duck direct b
  simp [realSearch, runSearchMethods]

/-- Witness for C3: with the first method empty and the second producing
one candidate, the pipeline returns that candidate after invoking exactly
two methods. -/
theorem c3_adapter_priority_witness :
    runSearchMethods [Except.ok [], Except.ok [candB], Except.error "x", Except.ok []] =
      ([candB], 2) :=
  c3_adapter_priority_first_hit.1 [Except.ok []] (Except.ok [candB])
    [Except.error "x", Except.ok []] [candB] (by decide) rfl (by decide)

/-- C4: every `RestaurantMenu` produced by any construction path — all
`realScrape` return paths (sectioned, post-scroll, final, mock fallback),
`mockScrape` itself, and the Apify result parsing `parseApifyResult` — has
`categories` equal to the de-duplicated projection of `item.category` over
its items; the Apify-side mock fallback `getMockData`, whose categories
list is hardcoded, still equals that projection as a set (same members, no
duplicates), though not as the first-occurrence-ordered list. -/
theorem c4_categories_projection :
    (∀ (url : String) (opts : ScrapingOptions) (env : Except String PageModel)
       (now : Nat) (m : RestaurantMenu),
       (realScrape url opts env now).result = Except.ok m →
       m.categories = dedupFirst (m.menuItems.map (fun it => it.category)))
    ∧ (∀ (url : String) (opts : ScrapingOptions) (now : Nat),
        (mockScrape url opts now).categories =
          dedupFirst ((mockScrape url opts now).menuItems.map (fun it => it.category)))
    ∧ (∀ (apifyData : List ApifyRecord) (url : String) (now : Nat),
        (parseApifyResult apifyData url now).categories =
          dedupFirst ((parseApifyResult apifyData url now).menuItems.map
            (fun it => it.category)))
    ∧ (∀ (url : String) (now : Nat),
        (∀ c, c ∈ (apifyGetMockData url now).categories ↔
          c ∈ (apifyGetMockData url now).menuItems.map (fun it => it.category))
        ∧ (apifyGetMockData url now).categories.Nodup) := by
  refine ⟨?_, fun url opts now => mockScrape_categories url opts now,
    fun apifyData url now => rfl, ?_⟩
  · intro url opts env now m h
    unfold realScrape at h
    split at h
    · have := Except.ok.inj h
      rw [← this]
      exact mockScrape_categories url opts now
    · cases env with
      | error e => cases h
      | ok page =>
        have := Except.ok.inj h
        rw [← this]
        exact realScrapePage_categories url opts page now
  · intro url now
    constructor
    · intro c
      show c ∈ ["appetizer", "main", "dessert"] ↔
        c ∈ (apifyMockMenuItems.map (fun it => it.category))
      simp only [apifyMockMenuItems, List.map_cons, List.map_nil, List.mem_cons,
        List.not_mem_nil, or_false]
      tauto
    · show (["appetizer", "main", "dessert"] : List String).Nodup
      decide

/-- Witness for C4: the menu returned for a page with no extractable
content satisfies the categories invariant. -/
theorem c4_categories_witness :
    (mockScrape listingUrlA {} 0).categories =
      dedupFirst ((mockScrape listingUrlA {} 0).menuItems.map (fun it => it.category)) :=
  c4_categories_projection.1 listingUrlA {} (Except.ok emptyPage) 0
    (mockScrape listingUrlA {} 0) rfl

/-- C5: extraction retries transport faults up to 3 attempts with
exponential backoff of 1s then 2s between attempts: if attempts 1 and 2
fault and attempt 3 succeeds, the successful menu is returned with total
backoff delay 3000 ms (hence elapsed time at least 1s + 2s), and an
exception surfaces to the caller only when all 3 attempts have failed. -/
theorem c5_retry_backoff :
    (∀ (oracle : Nat → Except String RestaurantMenu) (e1 e2 : String)
       (m : RestaurantMenu),
       oracle 1 = Except.error e1 → oracle 2 = Except.error e2 →
       oracle 3 = Except.ok m →
       scrapeRestaurantMenu oracle = (Except.ok m, 3000) ∧ 1000 + 2000 ≤ 3000)
    ∧ (∀ (oracle : Nat → Except String RestaurantMenu) (msg : String) (t : Nat),
       scrapeRestaurantMenu oracle = (Except.error msg, t) →
       (∃ e, oracle 1 = Except.error e) ∧ (∃ e, oracle 2 = Except.error e) ∧
       (∃ e, oracle 3 = Except.error e)) := by
  constructor
  · intro oracle e1 e2 m h1 h2 h3
    constructor
    · simp [scrapeRestaurantMenu, scrapeGo, maxRetries, retryDelay, h1, h2, h3]
    · norm_num
  · intro oracle msg t h
    cases h1 : oracle 1 with
    | ok m1 => simp [scrapeRestaurantMenu, scrapeGo, maxRetries, h1] at h
    | error e1 =>
      cases h2 : oracle 2 with
      | ok m2 => simp [scrapeRestaurantMenu, scrapeGo, maxRetries, h1, h2] at h
      | error e2 =>
        cases h3 : oracle 3 with
        | ok m3 => simp [scrapeRestaurantMenu, scrapeGo, maxRetries, h1, h2, h3] at h
        | error e3 => exact ⟨⟨e1, rfl⟩, ⟨e2, rfl⟩, ⟨e3, rfl⟩⟩

/-- Witness for C5: an oracle faulting on attempts 1 and 2 and succeeding
on attempt 3 yields the successful menu after 3000 ms of backoff. -/
theorem c5_retry_backoff_witness :
    scrapeRestaurantMenu oracleW = (Except.ok menuW, 3000) ∧ 1000 + 2000 ≤ 3000 :=
  c5_retry_backoff.1 oracleW "network timeout" "network timeout" menuW rfl rfl rfl

/-- C6 (code bug): on the sectioned-extraction success path, `realScrape`
launches a browser, returns a menu, and exits without `browser.close()`
having run — the browser session is leaked, contradicting the guaranteed
release on every exit path (the close call sits only on the final
general-extraction return and in the catch block, not in a finally). -/
theorem c6_browser_leak_on_sectioned_path :
    (realScrape listingUrlA {} (Except.ok sectionPage) 0).browserLaunched = true
    ∧ (realScrape listingUrlA {} (Except.ok sectionPage) 0).browserClosed = false
    ∧ (realScrape listingUrlA {} (Except.ok sectionPage) 0).result.isOk = true := by
  decide

/-- C7: the resolution pipeline is total — an adapter that throws is
caught and treated exactly as an adapter returning zero candidates (the
pipeline advances and never propagates the exception), and the SerpAPI
adapter with a missing API key, or a thrown HTTP call, returns an empty
result instead of crashing. -/
theorem c7_pipeline_total :
    (∀ (pre : List (Except String (List RestaurantSearchResult)))
       (e : String)
       (post : List (Except String (List RestaurantSearchResult))),
       runSearchMethods (pre ++ Except.error e :: post) =
         runSearchMethods (pre ++ Except.ok [] :: post))
    ∧ (∀ (restaurantName : String) (resp : Except String SerpResponse),
        serpApiSearchRestaurants "" restaurantName resp = [])
    ∧ (∀ (apiKey restaurantName e : String),
        serpApiSearchRestaurants apiKey restaurantName (Except.error e) = []) := by
  refine ⟨?_, ?_, ?_⟩
  · intro pre e post
    induction pre with
    | nil => simp [runSearchMethods]
    | cons x pre ih =>
      cases x with
      | ok xs =>
        by_cases hxs : xs.isEmpty
        · simp [runSearchMethods, hxs, ih]
        · simp [runSearchMethods, hxs]
      | error e2 => simp [runSearchMethods, ih]
  · intro restaurantName resp
    simp [serpApiSearchRestaurants]
  · intro apiKey restaurantName e
    by_cases hk : apiKey = ""
    · simp [serpApiSearchRestaurants, hk]
    · simp [serpApiSearchRestaurants, hk]

/-- C8: the candidate-URL validation predicate is a pure function of the
URL string; it accepts exactly the URLs containing the fixed listing
segment `/ca/store/` and carrying no query marker, rejects
`https://marketplace.example/about`, and accepts
`https://marketplace.example/ca/store/some-id`. -/
theorem c8_validator_predicate :
    (∀ url : String, storeUrlFilter url = true ↔
        ("/ca/store/".data <:+: url.data ∧ ¬ ("?".data <:+: url.data)))
    ∧ storeUrlFilter "https://marketplace.example/about" = false
    ∧ storeUrlFilter "https://marketplace.example/ca/store/some-id" = true := by
  refine ⟨?_, by decide, by decide⟩
  intro url
  simp only [storeUrlFilter, strContains, Bool.and_eq_true, Bool.not_eq_true',
    Bool.eq_false_iff, Ne, hasSubChars_iff_infix]

/-- C9 (counterexample): with options `maxItems: 0` (set, but falsy in the
source) and `categories: ['drink']`, real extraction returns one item of
category `main` — the menu is neither truncated to 0 items nor filtered to
the requested categories. -/
theorem c9_options_counterexample :
    (scrapedItems (realScrape listingUrlA cexOptions (Except.ok pricePage) 0)).map
        (fun it => it.category) = ["main"]
    ∧ ¬ ((scrapedItems (realScrape listingUrlA cexOptions (Except.ok pricePage) 0)).length ≤ 0)
    ∧ "main" ∉ (["drink"] : List String) := by decide

/-- C9 (amended): when `options.maxItems` is set to a positive value, every
menu returned by `realScrape` (any path, mock fallback included) contains
at most that many items; the `categories` filter, however, is applied only
by the mock/degradation path: when `options.categories` is a non-empty
list, every item of a `mockScrape` menu has a category in that list, while
real extraction ignores the option. -/
theorem c9_options_amended :
    (∀ (url : String) (opts : ScrapingOptions) (env : Except String PageModel)
       (now : Nat) (k : Nat) (m : RestaurantMenu),
       opts.maxItems = some k → k ≠ 0 →
       (realScrape url opts env now).result = Except.ok m →
       m.menuItems.length ≤ k)
    ∧ (∀ (url : String) (opts : ScrapingOptions) (now : Nat) (cs : List String),
       opts.categories = some cs → cs ≠ [] →
       ∀ it ∈ (mockScrape url opts now).menuItems, it.category ∈ cs) := by
  constructor
  · intro url opts env now k m hk h0 h
    unfold realScrape at h
    split at h
    · rw [← Except.ok.inj h]
      exact mockScrape_length_le hk h0 url now
    · cases env with
      | error e => cases h
      | ok page =>
        rw [← Except.ok.inj h]
        exact realScrapePage_length_le hk h0 url page now
  · intro url opts now cs hcat hne it hit
    have hlen : cs.length > 0 := List.length_pos.mpr hne
    unfold mockScrape at hit
    dsimp only at hit
    rw [hcat] at hit
    dsimp only at hit
    rw [if_pos hlen] at hit
    have := List.mem_filter.mp hit
    simpa using this.2

/-- Witness for C9: `maxItems: 2` truncates the mock-fallback menu to at
most 2 items, and a `categories: ['drink']` option confines the mock menu
to that category. -/
theorem c9_options_witness :
    (mockScrape listingUrlA boundedOptions 0).menuItems.length ≤ 2
    ∧ ∀ it ∈ (mockScrape listingUrlA { categories := some ["drink"] } 0).menuItems,
        it.category ∈ (["drink"] : List String) :=
  ⟨c9_options_amended.1 listingUrlA boundedOptions (Except.ok emptyPage) 0 2
      (mockScrape listingUrlA boundedOptions 0) rfl (by decide) rfl,
    c9_options_amended.2 listingUrlA { categories := some ["drink"] } 0 ["drink"]
      rfl (by decide)⟩

/-- C10: `getExpensiveItems(menu, limit)` returns the `min(limit, n)`
highest-priced items in non-increasing price order (the prefix of the
descending sort; every returned item's price is at least every dropped
item's price), and as a frame effect the menu's `menuItems` array is
permuted in place into that descending-price order, so the caller's
original document-order sequence is not preserved. -/
theorem c10_get_expensive_items :
    ∀ (menu : RestaurantMenu) (limit : Nat),
      ((getExpensiveItems menu limit).1).length = min limit menu.menuItems.length
      ∧ List.Sorted priceGE ((getExpensiveItems menu limit).1)
      ∧ (getExpensiveItems menu limit).1 =
          ((getExpensiveItems menu limit).2).menuItems.take limit
      ∧ List.Sorted priceGE ((getExpensiveItems menu limit).2).menuItems
      ∧ List.Perm ((getExpensiveItems menu limit).2).menuItems menu.menuItems
      ∧ ∀ a ∈ (getExpensiveItems menu limit).1,
          ∀ b ∈ ((getExpensiveItems menu limit).2).menuItems.drop limit,
            b.price ≤ a.price := by
  intro menu limit
  have hperm : List.Perm (List.insertionSort priceGE menu.menuItems) menu.menuItems :=
    List.perm_insertionSort priceGE menu.menuItems
  have hsorted : List.Sorted priceGE (List.insertionSort priceGE menu.menuItems) :=
    List.sorted_insertionSort priceGE menu.menuItems
  refine ⟨?_, ?_, rfl, hsorted, hperm, ?_⟩
  · rw [show ((getExpensiveItems menu limit).1) =
        (List.insertionSort priceGE menu.menuItems).take limit from rfl]
    rw [List.length_take, hperm.length_eq]
  · exact List.Pairwise.sublist (List.take_sublist _ _) hsorted
  · intro a ha b hb
    have hsplit := List.take_append_drop limit (List.insertionSort priceGE menu.menuItems)
    have hp : List.Pairwise priceGE (List.insertionSort priceGE menu.menuItems) := hsorted
    rw [← hsplit] at hp
    exact (List.pairwise_append.mp hp).2.2 a ha b hb
